import Mathlib

/-!
Shallow embedding of the AI summarizer service (`src/main.py`).

The service exposes a `POST /summarize` handler (`summarize_text`) that
validates the input text, calls a remote inference client inside a
three-attempt retry loop with linear backoff on timeout-classified
failures, inserts a record into a Mongo collection on success, and a
`GET /history` handler (`get_history`) that returns stored records
sorted by creation time descending, limited by a caller-supplied limit.

The inference client is modelled as a function from the request text and
the attempt index to an outcome: a successful summary, the typed
`InferenceTimeoutError`, or a generic exception carrying a message.
Side effects are made explicit: the handler result records the HTTP
response, the number of inference calls made, the list of sleep
durations in order, and the resulting store contents.
-/

/-- The constant `max_length = 1024` from `src/main.py`. -/
def max_length : Nat := 1024

/-- The constant `max_retries = 3` from `src/main.py`. -/
def max_retries : Nat := 3

/-- Outcome of one call to `hf_client.summarization`: success with a
summary, the typed `InferenceTimeoutError`, or a generic exception with
message `msg`. -/
inductive InferOutcome where
  | success (summary : String)
  | inferenceTimeout
  | genericError (msg : String)
deriving DecidableEq

/-- Does the char list `pat` match at the head of `l`? -/
def charsMatchAt : List Char → List Char → Bool
  | [], _ => true
  | _ :: _, [] => false
  | p :: ps, c :: cs => p == c && charsMatchAt ps cs

/-- Does the char list `l` contain `pat` as a contiguous run? -/
def charsContain (pat : List Char) : List Char → Bool
  | [] => charsMatchAt pat []
  | c :: cs => charsMatchAt pat (c :: cs) || charsContain pat cs

/-- The source's `"timed out" in error_msg.lower()` test: lowercasing is
modelled per character. -/
def containsTimedOut (msg : String) : Bool :=
  charsContain "timed out".toList (msg.toList.map Char.toLower)

/-- An exception is timeout-classified when it is the typed
`InferenceTimeoutError`, or a generic exception whose message contains
`"timed out"` after lowercasing — exactly the two `except` branches of
the retry loop in `src/main.py` that lead to a retry or a 504. -/
def timeoutClassified : InferOutcome → Bool
  | .success _ => false
  | .inferenceTimeout => true
  | .genericError msg => containsTimedOut msg

/-- Result of the retry loop: a summary, or an HTTPException with a
status code and detail string. -/
inductive LoopResult where
  | ok (summary : String)
  | httpError (status : Nat) (detail : String)
deriving DecidableEq

/-- The retry loop `for attempt in range(max_retries)` of
`summarize_text` in `src/main.py`. `f attempt` is the outcome of the
inference call on that attempt. Returns the number of inference calls
made, the sleep durations in order, and the loop result. `fuel` is the
number of iterations left (`max_retries - attempt`); the `fuel = 0` case
is unreachable from the handler's entry `summLoop f 0 max_retries`
because every branch of the final iteration terminates the loop. -/
def summLoop (f : Nat → InferOutcome) : Nat → Nat → Nat × List Nat × LoopResult
  | _, 0 => (0, [], .httpError 500 "loop exhausted")
  | attempt, fuel + 1 =>
    match f attempt with
    | .success s => (1, [], .ok s)
    | .inferenceTimeout =>
      if attempt < max_retries - 1 then
        let r := summLoop f (attempt + 1) fuel
        (r.1 + 1, 10 * (attempt + 1) :: r.2.1, r.2.2)
      else
        (1, [], .httpError 504 "Model timeout. Please try again.")
    | .genericError msg =>
      if containsTimedOut msg then
        if attempt < max_retries - 1 then
          let r := summLoop f (attempt + 1) fuel
          (r.1 + 1, 10 * (attempt + 1) :: r.2.1, r.2.2)
        else
          (1, [], .httpError 504
            "Connection timeout. The model is warming up. Please try again in a moment.")
      else
        (1, [], .httpError 500 ("AI Error: " ++ msg))

/-- A document of the `summaries` collection: the `_id` assigned by
Mongo on insert plus the fields written by `summarize_text`.
`created_at` is an abstract timestamp. -/
structure StoredRecord where
  id : String
  original_text : String
  summary_text : String
  created_at : Nat
deriving DecidableEq

/-- A record as returned by `get_history`: the Mongo projection
`{"_id": 0}` removes the internal identifier field. -/
structure HistoryRecord where
  original_text : String
  summary_text : String
  created_at : Nat
deriving DecidableEq

/-- The HTTP response of the summarize handler: an HTTPException with
status and detail, or the 200 body `{id, summary, timestamp}`. -/
inductive Response where
  | error (status : Nat) (detail : String)
  | ok (id : String) (summary : String) (timestamp : Nat)
deriving DecidableEq

/-- Observable effects of one run of the summarize handler: the
response, how many inference calls were made, the sleeps performed in
order, and the resulting contents of the store. -/
structure HandlerRun where
  response : Response
  calls : Nat
  sleeps : List Nat
  store : List StoredRecord
deriving DecidableEq

/-- The `POST /summarize` handler of `src/main.py`. `client text i` is
the outcome of the inference call with body `text` on attempt `i`;
`now` is the value of `datetime.utcnow()`; `newId` is the `_id` Mongo
assigns on insert; `store` is the prior contents of the collection. -/
def summarize_text (text : String) (client : String → Nat → InferOutcome)
    (now : Nat) (newId : String) (store : List StoredRecord) : HandlerRun :=
  if text = "" then
    ⟨.error 400 "Text cannot be empty", 0, [], store⟩
  else if text.length > max_length then
    ⟨.error 400 ("Text too long. Maximum " ++ toString max_length ++ " characters allowed."),
      0, [], store⟩
  else
    match summLoop (client text) 0 max_retries with
    | (calls, sleeps, .httpError status detail) =>
      ⟨.error status detail, calls, sleeps, store⟩
    | (calls, sleeps, .ok s) =>
      ⟨.ok newId s now, calls, sleeps, store ++ [⟨newId, text, s, now⟩]⟩

/-- Projection of a stored document by `{"_id": 0}`. -/
def project (r : StoredRecord) : HistoryRecord :=
  ⟨r.original_text, r.summary_text, r.created_at⟩

/-- Modelled from the documented semantics of the external Mongo cursor
`limit` used by `src/main.py`: a limit of 0 is equivalent to no limit,
and a negative limit behaves as its absolute value. -/
def mongoLimit (limit : Int) (l : List α) : List α :=
  if limit = 0 then l else l.take limit.natAbs

/-- The `sort("created_at", -1)` comparison: newest first. -/
def createdDesc (a b : StoredRecord) : Prop :=
  b.created_at ≤ a.created_at

instance : DecidableRel createdDesc :=
  fun a b => Nat.decLe b.created_at a.created_at

instance : IsTotal StoredRecord createdDesc :=
  ⟨fun a b => Nat.le_total b.created_at a.created_at⟩

instance : IsTrans StoredRecord createdDesc :=
  ⟨fun _ _ _ hab hbc => Nat.le_trans hbc hab⟩

/-- The `GET /history` handler of `src/main.py`: project away `_id`,
sort by `created_at` descending, apply the limit, and return the count
and the data. The default for `limit` in the source is 10. -/
def get_history (store : List StoredRecord) (limit : Int) : Nat × List HistoryRecord :=
  let history := mongoLimit limit ((store.insertionSort createdDesc).map project)
  (history.length, history)

lemma summLoop_succ0 (f : Nat → InferOutcome) (s : String) (h : f 0 = .success s) :
    summLoop f 0 3 = (1, [], .ok s) := by
  simp [summLoop, h]

lemma summLoop_retry0 (f : Nat → InferOutcome) (ht : timeoutClassified (f 0) = true) :
    summLoop f 0 3 =
      ((summLoop f 1 2).1 + 1, 10 :: (summLoop f 1 2).2.1, (summLoop f 1 2).2.2) := by
  rcases h : f 0 with s | _ | m
  · rw [h] at ht; simp [timeoutClassified] at ht
  · simp [summLoop, h, max_retries]
  · rw [h] at ht
    simp only [timeoutClassified] at ht
    simp [summLoop, h, ht, max_retries]

lemma summLoop_hard0 (f : Nat → InferOutcome) (m : String) (h : f 0 = .genericError m)
    (hm : containsTimedOut m = false) :
    summLoop f 0 3 = (1, [], .httpError 500 ("AI Error: " ++ m)) := by
  simp [summLoop, h, hm]

lemma summLoop_succ1 (f : Nat → InferOutcome) (s : String) (h : f 1 = .success s) :
    summLoop f 1 2 = (1, [], .ok s) := by
  simp [summLoop, h]

lemma summLoop_retry1 (f : Nat → InferOutcome) (ht : timeoutClassified (f 1) = true) :
    summLoop f 1 2 =
      ((summLoop f 2 1).1 + 1, 20 :: (summLoop f 2 1).2.1, (summLoop f 2 1).2.2) := by
  rcases h : f 1 with s | _ | m
  · rw [h] at ht; simp [timeoutClassified] at ht
  · simp [summLoop, h, max_retries]
  · rw [h] at ht
    simp only [timeoutClassified] at ht
    simp [summLoop, h, ht, max_retries]

lemma summLoop_hard1 (f : Nat → InferOutcome) (m : String) (h : f 1 = .genericError m)
    (hm : containsTimedOut m = false) :
    summLoop f 1 2 = (1, [], .httpError 500 ("AI Error: " ++ m)) := by
  simp [summLoop, h, hm]

lemma summLoop_succ2 (f : Nat → InferOutcome) (s : String) (h : f 2 = .success s) :
    summLoop f 2 1 = (1, [], .ok s) := by
  simp [summLoop, h]

lemma summLoop_typed2 (f : Nat → InferOutcome) (h : f 2 = .inferenceTimeout) :
    summLoop f 2 1 = (1, [], .httpError 504 "Model timeout. Please try again.") := by
  simp [summLoop, h, max_retries]

lemma summLoop_generic2 (f : Nat → InferOutcome) (m : String) (h : f 2 = .genericError m)
    (hm : containsTimedOut m = true) :
    summLoop f 2 1 =
      (1, [],
        .httpError 504
          "Connection timeout. The model is warming up. Please try again in a moment.") := by
  simp [summLoop, h, hm, max_retries]

lemma summLoop_hard2 (f : Nat → InferOutcome) (m : String) (h : f 2 = .genericError m)
    (hm : containsTimedOut m = false) :
    summLoop f 2 1 = (1, [], .httpError 500 ("AI Error: " ++ m)) := by
  simp [summLoop, h, hm]

lemma summarize_text_valid (text : String) (client : String → Nat → InferOutcome)
    (now : Nat) (newId : String) (store : List StoredRecord)
    (hne : text ≠ "") (hlen : text.length ≤ max_length) :
    summarize_text text client now newId store =
      match summLoop (client text) 0 max_retries with
      | (calls, sleeps, .httpError status detail) => ⟨.error status detail, calls, sleeps, store⟩
      | (calls, sleeps, .ok s) =>
        ⟨.ok newId s now, calls, sleeps, store ++ [⟨newId, text, s, now⟩]⟩ := by
  simp [summarize_text, hne, Nat.not_lt.mpr hlen]

lemma timeoutClassified_false_cases (f : Nat → InferOutcome) (i : Nat)
    (h : timeoutClassified (f i) = false) :
    (∃ s, f i = .success s) ∨ ∃ m, f i = .genericError m ∧ containsTimedOut m = false := by
  rcases hi : f i with s | _ | m
  · exact Or.inl ⟨s, rfl⟩
  · rw [hi] at h; simp [timeoutClassified] at h
  · rw [hi] at h
    exact Or.inr ⟨m, rfl, by simpa [timeoutClassified] using h⟩

lemma summLoop_shape (f : Nat → InferOutcome) :
    1 ≤ (summLoop f 0 3).1 ∧ (summLoop f 0 3).1 ≤ 3 ∧
    (summLoop f 0 3).2.1 =
      (List.range ((summLoop f 0 3).1 - 1)).map (fun k => 10 * (k + 1)) := by
  rcases ht0 : timeoutClassified (f 0) with _ | _
  · rcases timeoutClassified_false_cases f 0 ht0 with ⟨s, h0⟩ | ⟨m, h0, hm⟩
    · rw [summLoop_succ0 f s h0]; simp
    · rw [summLoop_hard0 f m h0 hm]; simp
  · rw [summLoop_retry0 f ht0]
    rcases ht1 : timeoutClassified (f 1) with _ | _
    · rcases timeoutClassified_false_cases f 1 ht1 with ⟨s, h1⟩ | ⟨m, h1, hm⟩
      · rw [summLoop_succ1 f s h1]; simp [List.range_succ]
      · rw [summLoop_hard1 f m h1 hm]; simp [List.range_succ]
    · rw [summLoop_retry1 f ht1]
      rcases h2 : f 2 with s | _ | m
      · rw [summLoop_succ2 f s h2]; simp [List.range_succ]
      · rw [summLoop_typed2 f h2]; simp [List.range_succ]
      · rcases hm : containsTimedOut m with _ | _
        · rw [summLoop_hard2 f m h2 hm]; simp [List.range_succ]
        · rw [summLoop_generic2 f m h2 hm]; simp [List.range_succ]

/-- C1: on a validated text, the inference call is attempted at most 3
times (and at least once), and the sleeps performed are exactly
`10 * (i + 1)` seconds after each failed attempt `i` that has attempts
remaining: the sleep list is `[10, ..., 10 * (calls - 1)]`, so the waits
are 10s then 20s and no sleep follows the final attempt or a success. -/
theorem claim_C1 (text : String) (client : String → Nat → InferOutcome)
    (now : Nat) (newId : String) (store : List StoredRecord)
    (hne : text ≠ "") (hlen : text.length ≤ max_length) :
    1 ≤ (summarize_text text client now newId store).calls ∧
    (summarize_text text client now newId store).calls ≤ 3 ∧
    (summarize_text text client now newId store).sleeps =
      (List.range ((summarize_text text client now newId store).calls - 1)).map
        (fun k => 10 * (k + 1)) := by
  rw [summarize_text_valid text client now newId store hne hlen]
  have hs := summLoop_shape (client text)
  simp only [max_retries]
  rcases hL : summLoop (client text) 0 3 with ⟨c, sl, res⟩
  rw [hL] at hs
  cases res
  · simpa using hs
  · simpa using hs

theorem claim_C1_witness :
    ("hi" : String) ≠ "" ∧ ("hi" : String).length ≤ max_length ∧
    (1 ≤ (summarize_text "hi" (fun _ _ => .success "S") 5 "id0" []).calls ∧
     (summarize_text "hi" (fun _ _ => .success "S") 5 "id0" []).calls ≤ 3 ∧
     (summarize_text "hi" (fun _ _ => .success "S") 5 "id0" []).sleeps =
       (List.range ((summarize_text "hi" (fun _ _ => .success "S") 5 "id0" []).calls - 1)).map
         (fun k => 10 * (k + 1))) :=
  ⟨by decide, by decide,
    claim_C1 "hi" (fun _ _ => .success "S") 5 "id0" [] (by decide) (by decide)⟩

/-- C2: an exception raised by the inference call takes the retry/504
path exactly when `timeoutClassified` holds of it — that is, when it is
the typed `InferenceTimeoutError` or a generic exception whose message
contains "timed out" case-insensitively; any other exception produces an
immediate generic 500 carrying the message. -/
theorem claim_C2 (f : Nat → InferOutcome) (attempt fuel : Nat) (msg : String)
    (herr : f attempt = .inferenceTimeout ∨ f attempt = .genericError msg) :
    summLoop f attempt (fuel + 1) =
      if timeoutClassified (f attempt) then
        if attempt < max_retries - 1 then
          ((summLoop f (attempt + 1) fuel).1 + 1,
            10 * (attempt + 1) :: (summLoop f (attempt + 1) fuel).2.1,
            (summLoop f (attempt + 1) fuel).2.2)
        else
          (1, [],
            .httpError 504
              (if f attempt = InferOutcome.inferenceTimeout then
                "Model timeout. Please try again."
              else
                "Connection timeout. The model is warming up. Please try again in a moment."))
      else (1, [], .httpError 500 ("AI Error: " ++ msg)) := by
  rcases herr with h | h
  · simp [summLoop, h, timeoutClassified]
  · rcases hm : containsTimedOut msg with _ | _
    · simp [summLoop, h, timeoutClassified, hm]
    · simp [summLoop, h, timeoutClassified, hm]

theorem claim_C2_witness :
    ((fun _ : Nat => InferOutcome.genericError "boom") 0 = InferOutcome.inferenceTimeout ∨
      (fun _ : Nat => InferOutcome.genericError "boom") 0 = InferOutcome.genericError "boom") ∧
    summLoop (fun _ => InferOutcome.genericError "boom") 0 (0 + 1) =
      (if timeoutClassified ((fun _ : Nat => InferOutcome.genericError "boom") 0) then
        if 0 < max_retries - 1 then
          ((summLoop (fun _ => InferOutcome.genericError "boom") (0 + 1) 0).1 + 1,
            10 * (0 + 1) ::
              (summLoop (fun _ => InferOutcome.genericError "boom") (0 + 1) 0).2.1,
            (summLoop (fun _ => InferOutcome.genericError "boom") (0 + 1) 0).2.2)
        else
          (1, [],
            .httpError 504
              (if (fun _ : Nat => InferOutcome.genericError "boom") 0 =
                  InferOutcome.inferenceTimeout then
                "Model timeout. Please try again."
              else
                "Connection timeout. The model is warming up. Please try again in a moment."))
      else (1, [], .httpError 500 ("AI Error: " ++ "boom"))) :=
  ⟨Or.inr rfl,
    claim_C2 (fun _ => InferOutcome.genericError "boom") 0 0 "boom" (Or.inr rfl)⟩

/-- C3: an empty text or a text longer than 1024 characters yields a
400 error with no inference call, no sleep and no store write; for any
other text the handler runs the retry loop on exactly the given text and,
on success, stores that text unchanged alongside the summary. -/
theorem claim_C3 (text : String) (client : String → Nat → InferOutcome)
    (now : Nat) (newId : String) (store : List StoredRecord) :
    (text = "" ∨ text.length > max_length →
      (∃ detail, (summarize_text text client now newId store).response = .error 400 detail) ∧
      (summarize_text text client now newId store).calls = 0 ∧
      (summarize_text text client now newId store).sleeps = [] ∧
      (summarize_text text client now newId store).store = store) ∧
    (text ≠ "" → text.length ≤ max_length →
      summarize_text text client now newId store =
        match summLoop (client text) 0 max_retries with
        | (calls, sleeps, .httpError status detail) =>
          ⟨.error status detail, calls, sleeps, store⟩
        | (calls, sleeps, .ok s) =>
          ⟨.ok newId s now, calls, sleeps, store ++ [⟨newId, text, s, now⟩]⟩) := by
  constructor
  · intro h
    rcases h with h | h
    · simp [summarize_text, h]
    · by_cases he : text = ""
      · simp [summarize_text, he]
      · simp [summarize_text, he, h]
  · intro hne hlen
    exact summarize_text_valid text client now newId store hne hlen

theorem claim_C3_witness :
    (("" : String) = "" ∨ ("" : String).length > max_length) ∧
    ((∃ detail, (summarize_text "" (fun _ _ => .success "S") 5 "id0" []).response =
        .error 400 detail) ∧
     (summarize_text "" (fun _ _ => .success "S") 5 "id0" []).calls = 0 ∧
     (summarize_text "" (fun _ _ => .success "S") 5 "id0" []).sleeps = [] ∧
     (summarize_text "" (fun _ _ => .success "S") 5 "id0" []).store = []) :=
  ⟨Or.inl rfl, (claim_C3 "" (fun _ _ => .success "S") 5 "id0" []).1 (Or.inl rfl)⟩

/-- C4: when every one of the 3 attempts fails with a timeout-classified
error, the endpoint returns a 504 error, writes no record, and has slept
exactly 10 seconds and then 20 seconds before failing. -/
theorem claim_C4 (text : String) (client : String → Nat → InferOutcome)
    (now : Nat) (newId : String) (store : List StoredRecord)
    (hne : text ≠ "") (hlen : text.length ≤ max_length)
    (ht : ∀ i, i < 3 → timeoutClassified (client text i) = true) :
    ∃ detail,
      summarize_text text client now newId store =
        ⟨.error 504 detail, 3, [10, 20], store⟩ := by
  rw [summarize_text_valid text client now newId store hne hlen]
  simp only [max_retries]
  have h2 := ht 2 (by decide)
  rw [summLoop_retry0 _ (ht 0 (by decide)), summLoop_retry1 _ (ht 1 (by decide))]
  rcases h2' : client text 2 with s | _ | m
  · rw [h2'] at h2; simp [timeoutClassified] at h2
  · rw [summLoop_typed2 _ h2']
    exact ⟨"Model timeout. Please try again.", by simp⟩
  · have hm : containsTimedOut m = true := by
      rw [h2'] at h2; simpa [timeoutClassified] using h2
    rw [summLoop_generic2 _ m h2' hm]
    exact ⟨"Connection timeout. The model is warming up. Please try again in a moment.",
      by simp⟩

theorem claim_C4_witness :
    ("hi" : String) ≠ "" ∧ ("hi" : String).length ≤ max_length ∧
    ∃ detail,
      summarize_text "hi" (fun _ _ => .inferenceTimeout) 5 "id0" [] =
        ⟨.error 504 detail, 3, [10, 20], []⟩ :=
  ⟨by decide, by decide,
    claim_C4 "hi" (fun _ _ => .inferenceTimeout) 5 "id0" [] (by decide) (by decide)
      (fun i _ => rfl)⟩

/-- C5: if attempt `i` is reached (all earlier attempts were
timeout-classified) and the inference call raises a non-timeout error
there, the endpoint returns 500 immediately with the underlying message
in the detail: no further attempt is made, no sleep follows the error
(the sleeps are exactly those of the earlier timeouts), and no record is
written. -/
theorem claim_C5 (text : String) (client : String → Nat → InferOutcome)
    (now : Nat) (newId : String) (store : List StoredRecord)
    (hne : text ≠ "") (hlen : text.length ≤ max_length)
    (i : Nat) (hi : i < 3) (msg : String)
    (hprev : ∀ j, j < i → timeoutClassified (client text j) = true)
    (herr : client text i = .genericError msg)
    (hmsg : containsTimedOut msg = false) :
    summarize_text text client now newId store =
      ⟨.error 500 ("AI Error: " ++ msg), i + 1,
        (List.range i).map (fun k => 10 * (k + 1)), store⟩ := by
  rw [summarize_text_valid text client now newId store hne hlen]
  simp only [max_retries]
  interval_cases i
  · rw [summLoop_hard0 _ msg herr hmsg]; simp
  · rw [summLoop_retry0 _ (hprev 0 (by decide)), summLoop_hard1 _ msg herr hmsg]
    simp [List.range_succ]
  · rw [summLoop_retry0 _ (hprev 0 (by decide)), summLoop_retry1 _ (hprev 1 (by decide)),
      summLoop_hard2 _ msg herr hmsg]
    simp [List.range_succ]

theorem claim_C5_witness :
    ("hi" : String) ≠ "" ∧ ("hi" : String).length ≤ max_length ∧
    (0 : Nat) < 3 ∧ containsTimedOut "boom" = false ∧
    summarize_text "hi" (fun _ _ => .genericError "boom") 5 "id0" [] =
      ⟨.error 500 ("AI Error: " ++ "boom"), 0 + 1,
        (List.range 0).map (fun k => 10 * (k + 1)), []⟩ :=
  ⟨by decide, by decide, by decide, by decide,
    claim_C5 "hi" (fun _ _ => .genericError "boom") 5 "id0" [] (by decide) (by decide)
      0 (by decide) "boom" (fun j hj => absurd hj (Nat.not_lt_zero j)) rfl (by decide)⟩

/-- C6: if attempt `i` is reached (all earlier attempts were
timeout-classified) and the inference call succeeds there with summary
`s`, the endpoint returns 200 with the record id, `s`, and the creation
timestamp, and exactly one record pairing the input text with `s` is
appended to the store. -/
theorem claim_C6 (text : String) (client : String → Nat → InferOutcome)
    (now : Nat) (newId : String) (store : List StoredRecord)
    (hne : text ≠ "") (hlen : text.length ≤ max_length)
    (i : Nat) (hi : i < 3) (s : String)
    (hprev : ∀ j, j < i → timeoutClassified (client text j) = true)
    (hsucc : client text i = .success s) :
    summarize_text text client now newId store =
      ⟨.ok newId s now, i + 1, (List.range i).map (fun k => 10 * (k + 1)),
        store ++ [⟨newId, text, s, now⟩]⟩ := by
  rw [summarize_text_valid text client now newId store hne hlen]
  simp only [max_retries]
  interval_cases i
  · rw [summLoop_succ0 _ s hsucc]; simp
  · rw [summLoop_retry0 _ (hprev 0 (by decide)), summLoop_succ1 _ s hsucc]
    simp [List.range_succ]
  · rw [summLoop_retry0 _ (hprev 0 (by decide)), summLoop_retry1 _ (hprev 1 (by decide)),
      summLoop_succ2 _ s hsucc]
    simp [List.range_succ]

theorem claim_C6_witness :
    ("hi" : String) ≠ "" ∧ ("hi" : String).length ≤ max_length ∧
    (2 : Nat) < 3 ∧
    summarize_text "hi" (fun _ i => if i < 2 then .inferenceTimeout else .success "S")
        5 "id0" [] =
      ⟨.ok "id0" "S" 5, 2 + 1, (List.range 2).map (fun k => 10 * (k + 1)),
        [] ++ [⟨"id0", "hi", "S", 5⟩]⟩ :=
  ⟨by decide, by decide, by decide,
    claim_C6 "hi" (fun _ i => if i < 2 then .inferenceTimeout else .success "S") 5 "id0" []
      (by decide) (by decide) 2 (by decide) "S"
      (fun j hj => by interval_cases j <;> rfl) (by decide)⟩

lemma summLoop_ok_success (f : Nat → InferOutcome) (attempt fuel : Nat) (c : Nat)
    (sl : List Nat) (s : String)
    (h : summLoop f attempt fuel = (c, sl, .ok s)) :
    ∃ i, attempt ≤ i ∧ i < attempt + fuel ∧ f i = .success s := by
  induction fuel generalizing attempt c sl with
  | zero => simp [summLoop] at h
  | succ fuel ih =>
    rcases hf : f attempt with s' | _ | m
    · simp only [summLoop, hf] at h
      simp only [Prod.mk.injEq, LoopResult.ok.injEq] at h
      exact ⟨attempt, Nat.le_refl _, by omega, by rw [hf, h.2.2]⟩
    · simp only [summLoop, hf] at h
      split at h
      · rcases hr : summLoop f (attempt + 1) fuel with ⟨c', sl', res⟩
        rw [hr] at h
        simp only [Prod.mk.injEq] at h
        rcases h with ⟨hc, hsl, hres⟩
        obtain ⟨i, hi1, hi2, hi3⟩ := ih (attempt + 1) c' sl' (by rw [hr, hres])
        exact ⟨i, by omega, by omega, hi3⟩
      · simp at h
    · simp only [summLoop, hf] at h
      split at h
      · split at h
        · rcases hr : summLoop f (attempt + 1) fuel with ⟨c', sl', res⟩
          rw [hr] at h
          simp only [Prod.mk.injEq] at h
          rcases h with ⟨hc, hsl, hres⟩
          obtain ⟨i, hi1, hi2, hi3⟩ := ih (attempt + 1) c' sl' (by rw [hr, hres])
          exact ⟨i, by omega, by omega, hi3⟩
        · simp at h
      · simp at h

/-- C7: the summarize handler only ever appends to the store (existing
records are never updated or deleted); at most one record is appended
per run, and a new record always carries a non-empty original text and a
summary produced by a successful inference call; on any error response
the store is unchanged. -/
theorem claim_C7 (text : String) (client : String → Nat → InferOutcome)
    (now : Nat) (newId : String) (store : List StoredRecord) :
    (∃ tail, (summarize_text text client now newId store).store = store ++ tail) ∧
    ((summarize_text text client now newId store).store = store ∨
      ∃ s, (summarize_text text client now newId store).store =
          store ++ [⟨newId, text, s, now⟩] ∧ text ≠ "" ∧
        (∃ i, i < 3 ∧ client text i = .success s) ∧
        (summarize_text text client now newId store).response = .ok newId s now) ∧
    (∀ status detail,
      (summarize_text text client now newId store).response = .error status detail →
      (summarize_text text client now newId store).store = store) := by
  by_cases he : text = ""
  · refine ⟨⟨[], ?_⟩, Or.inl ?_, fun status detail _ => ?_⟩ <;> simp [summarize_text, he]
  · by_cases hl : text.length > max_length
    · refine ⟨⟨[], ?_⟩, Or.inl ?_, fun status detail _ => ?_⟩ <;>
        simp [summarize_text, he, hl]
    · rw [summarize_text_valid text client now newId store he (Nat.not_lt.mp hl)]
      simp only [max_retries]
      rcases hL : summLoop (client text) 0 3 with ⟨c, sl, res⟩
      cases res with
      | ok s =>
        obtain ⟨i, _, hi3, hsucc⟩ := summLoop_ok_success (client text) 0 3 c sl s hL
        refine ⟨⟨[⟨newId, text, s, now⟩], by simp⟩,
          Or.inr ⟨s, by simp, he, ⟨i, by omega, hsucc⟩, by simp⟩,
          fun status detail hresp => ?_⟩
        simp at hresp
      | httpError st d =>
        exact ⟨⟨[], by simp⟩, Or.inl (by simp), fun status detail _ => by simp⟩

theorem claim_C7_witness :
    (∃ tail,
      (summarize_text "hi" (fun _ _ => .success "S") 5 "id0" []).store = [] ++ tail) ∧
    ((summarize_text "hi" (fun _ _ => .success "S") 5 "id0" []).store = [] ∨
      ∃ s, (summarize_text "hi" (fun _ _ => .success "S") 5 "id0" []).store =
          [] ++ [⟨"id0", "hi", s, 5⟩] ∧ ("hi" : String) ≠ "" ∧
        (∃ i, i < 3 ∧ (fun _ _ => InferOutcome.success "S") "hi" i = .success s) ∧
        (summarize_text "hi" (fun _ _ => .success "S") 5 "id0" []).response =
          .ok "id0" s 5) ∧
    (∀ status detail,
      (summarize_text "hi" (fun _ _ => .success "S") 5 "id0" []).response =
        .error status detail →
      (summarize_text "hi" (fun _ _ => .success "S") 5 "id0" []).store = []) :=
  claim_C7 "hi" (fun _ _ => .success "S") 5 "id0" []

lemma mongoLimit_subset (limit : Int) (l : List α) : mongoLimit limit l ⊆ l := by
  unfold mongoLimit
  split
  · exact fun x hx => hx
  · exact List.take_subset _ _

/-- C8: with a positive limit, the history endpoint returns a count
equal to the data length, the data being the first `limit` records of
the store sorted by `created_at` descending with the internal id
projected away; the data has at most `limit` elements, each coming from
the store, and an empty store yields count 0 and an empty list. -/
theorem claim_C8 (store : List StoredRecord) (limit : Int) (hpos : 0 < limit) :
    (get_history store limit).1 = (get_history store limit).2.length ∧
    (get_history store limit).2 =
      ((store.insertionSort createdDesc).map project).take limit.natAbs ∧
    (get_history store limit).2.length ≤ limit.natAbs ∧
    List.Pairwise (fun a b : HistoryRecord => b.created_at ≤ a.created_at)
      (get_history store limit).2 ∧
    (∀ item ∈ (get_history store limit).2, ∃ rec ∈ store, item = project rec) ∧
    (store = [] → get_history store limit = (0, [])) := by
  have hne : limit ≠ 0 := by omega
  have hmap : ((store.insertionSort createdDesc).map project).Pairwise
      (fun a b : HistoryRecord => b.created_at ≤ a.created_at) := by
    rw [List.pairwise_map]
    exact List.sorted_insertionSort createdDesc store
  refine ⟨rfl, ?_, ?_, ?_, ?_, ?_⟩
  · simp [get_history, mongoLimit, hne]
  · simp only [get_history, mongoLimit, hne, if_false, ite_false]
    exact List.length_take_le _ _
  · simp only [get_history, mongoLimit, hne, if_false, ite_false]
    exact hmap.sublist (List.take_sublist _ _)
  · intro item hitem
    have h1 : item ∈ (store.insertionSort createdDesc).map project :=
      mongoLimit_subset limit _ hitem
    obtain ⟨rec, hrec, hproj⟩ := List.mem_map.mp h1
    exact ⟨rec, (List.perm_insertionSort createdDesc store).mem_iff.mp hrec, hproj.symm⟩
  · intro hempty
    subst hempty
    simp [get_history, mongoLimit]

theorem claim_C8_witness :
    (0 : Int) < 10 ∧
    ((get_history [⟨"a", "x", "sx", 1⟩] 10).1 =
        (get_history [⟨"a", "x", "sx", 1⟩] 10).2.length ∧
      (get_history [⟨"a", "x", "sx", 1⟩] 10).2 =
        (([⟨"a", "x", "sx", 1⟩].insertionSort createdDesc).map project).take
          (10 : Int).natAbs ∧
      (get_history [⟨"a", "x", "sx", 1⟩] 10).2.length ≤ (10 : Int).natAbs ∧
      List.Pairwise (fun a b : HistoryRecord => b.created_at ≤ a.created_at)
        (get_history [⟨"a", "x", "sx", 1⟩] 10).2 ∧
      (∀ item ∈ (get_history [⟨"a", "x", "sx", 1⟩] 10).2,
        ∃ rec ∈ [(⟨"a", "x", "sx", 1⟩ : StoredRecord)], item = project rec) ∧
      ([(⟨"a", "x", "sx", 1⟩ : StoredRecord)] = [] →
        get_history [⟨"a", "x", "sx", 1⟩] 10 = (0, []))) :=
  ⟨by decide, claim_C8 [⟨"a", "x", "sx", 1⟩] 10 (by decide)⟩

/-- C9: the count field of a history response always equals the number
of elements of its data list. -/
theorem claim_C9 (store : List StoredRecord) (limit : Int) :
    (get_history store limit).1 = (get_history store limit).2.length := rfl

/-- C10: called with limit 0, the history endpoint returns every stored
record (the Mongo cursor treats limit 0 as no limit), not an empty
list. -/
theorem claim_C10 (store : List StoredRecord) :
    (get_history store 0).2 = (store.insertionSort createdDesc).map project ∧
    (get_history store 0).2.length = store.length ∧
    ∀ rec ∈ store, project rec ∈ (get_history store 0).2 := by
  refine ⟨?_, ?_, ?_⟩
  · simp [get_history, mongoLimit]
  · simp only [get_history, mongoLimit, if_pos, List.length_map]
    exact (List.perm_insertionSort createdDesc store).length_eq
  · intro rec hrec
    simp only [get_history, mongoLimit, if_pos]
    exact List.mem_map_of_mem project
      ((List.perm_insertionSort createdDesc store).mem_iff.mpr hrec)

theorem claim_C10_witness :
    (get_history [⟨"a", "x", "sx", 1⟩] 0).2 =
      ([⟨"a", "x", "sx", 1⟩].insertionSort createdDesc).map project ∧
    (get_history [⟨"a", "x", "sx", 1⟩] 0).2.length =
      [(⟨"a", "x", "sx", 1⟩ : StoredRecord)].length ∧
    ∀ rec ∈ [(⟨"a", "x", "sx", 1⟩ : StoredRecord)],
      project rec ∈ (get_history [⟨"a", "x", "sx", 1⟩] 0).2 :=
  claim_C10 [⟨"a", "x", "sx", 1⟩]
